import Mathlib

/-!
Shallow embedding of the telemetry-emission pipeline of the
python-otel-guidelines repository (files batch-otel-metrics.py and
batch-otel-traces.py), and theorems settling the specification claims
about it.

Times are modelled as exact rationals (the source uses floating-point
seconds from time.perf_counter; the arithmetic it performs — subtraction
and multiplication by 1000 — is embedded exactly).  Instrument handles
are modelled as natural-number identities.  Raised Python exceptions are
modelled with the Except monad; the try/except construct is the pyTry
combinator below.
-/

namespace Otel

/-- Attribute sets: string-keyed scalar maps, embedded as association lists. -/
abbrev AttrSet := List (String × String)

/-- Python idiom `attributes or \x7b\x7d` used in both constructors: a falsy
(empty) dict is replaced by the empty dict.  On association lists this keeps
a non-empty list and maps an empty one to the empty list. -/
def orEmpty (a : AttrSet) : AttrSet := if a.isEmpty then [] else a

/-- A structured diagnostic log record emitted through the logging module;
logging.error produces severity "error". -/
structure LogEvent where
  severity : String
  message : String
deriving DecidableEq, Repr

/-- Telemetry operations performed on metric instruments during a release:
counter.add(delta, attributes) and histogram.record(value, attributes).
The handle field is the identity of the instrument written to. -/
inductive MetricEvent
  | counterAdd (handle : Nat) (delta : ℚ) (attrs : AttrSet)
  | histRecord (handle : Nat) (value : ℚ) (attrs : AttrSet)
deriving DecidableEq, Repr

/-- Recognizer for counter-increment events. -/
def MetricEvent.isCounterAdd : MetricEvent → Bool
  | .counterAdd _ _ _ => true
  | _ => false

/-- Recognizer for histogram-record events. -/
def MetricEvent.isHistRecord : MetricEvent → Bool
  | .histRecord _ _ _ => true
  | _ => false

/-- Python try/except Exception as used in both release paths: run the body;
when it raises, run the handler on the raised exception. -/
def pyTry (body : Except String α) (handler : String → Except String α) :
    Except String α :=
  match body with
  | Except.ok a => Except.ok a
  | Except.error e => handler e

/-- The body of the try block shared by both release paths:
`if random.random() < 0.05: raise Exception('simulated error')`,
where r is the uniformly sampled value returned by random.random(). -/
def injectionTry (r : ℚ) : Except String Unit :=
  if r < 0.05 then Except.error "simulated error" else Except.ok ()

/-- How the instrumented with-block body finished: normal completion, or a
raised fault/cancellation carrying an exception. -/
inductive BodyOutcome
  | normal
  | raised (e : String)
deriving DecidableEq, Repr

/-- The exception argument Python passes to __exit__: None on normal
completion, the raised exception otherwise. -/
def BodyOutcome.toExc : BodyOutcome → Option String
  | .normal => none
  | .raised e => some e

/-- Python truthiness of the value returned by __exit__ (None or a bool):
None and False are falsy, True is truthy; a truthy value suppresses the
body's exception. -/
def truthy : Option Bool → Bool
  | none => false
  | some b => b

/-! ## batch-otel-metrics.py -/

/-- HistrogramTimer instance state after __init__ (duration_histogram,
error_counter and attributes stored on self); handles are instrument
identities. -/
structure HistrogramTimer where
  duration_histogram : Nat
  error_counter : Nat
  attributes : AttrSet
deriving DecidableEq, Repr

/-- HistrogramTimer.__init__: stores both handles and `attributes or \x7b\x7d`. -/
def HistrogramTimer.init (dh ec : Nat) (attributes : AttrSet) : HistrogramTimer :=
  { duration_histogram := dh, error_counter := ec, attributes := orEmpty attributes }

/-- A HistrogramTimer after __enter__ ran: start_time holds the
perf_counter value captured at acquisition. -/
structure EnteredTimer where
  timer : HistrogramTimer
  start_time : ℚ
deriving DecidableEq, Repr

/-- HistrogramTimer.__enter__: captures the current perf_counter value as
self.start_time and returns self. -/
def HistrogramTimer.enter (t : HistrogramTimer) (now : ℚ) : EnteredTimer :=
  { timer := t, start_time := now }

/-- HistrogramTimer.__exit__.  Parameters: gHist is the module-level
duration_histogram handle (the final line of the method reads the bare
global name duration_histogram, not self.duration_histogram), now the
perf_counter value at release, r the value drawn by random.random(), and
exc the exception triple passed by the with statement (named in the
signature but never read by the body).  Result: the metric events and log
records emitted, and the method's return value (None: no return
statement).  A raised exception escaping the method would surface as
Except.error. -/
def HistrogramTimer.exit (gHist : Nat) (s : EnteredTimer) (now r : ℚ)
    (exc : Option String) : Except String (List MetricEvent × List LogEvent × Option Bool) :=
  let duration_ms := (now - s.start_time) * 1000
  match pyTry
      (match injectionTry r with
       | Except.error e => Except.error e
       | Except.ok _ => Except.ok (([], []) : List MetricEvent × List LogEvent))
      (fun _ => Except.ok
        ([MetricEvent.counterAdd s.timer.error_counter 1 s.timer.attributes],
         [LogEvent.mk "error" "transaction failed"])) with
  | Except.error e => Except.error e
  | Except.ok (errEvents, errLogs) =>
      Except.ok
        (errEvents ++ [MetricEvent.histRecord gHist duration_ms s.timer.attributes],
         errLogs, none)

/-- A full with-block of HistrogramTimer: __enter__ at enterTime, the body
runs to its outcome, __exit__ at exitTime with random draw r and the
body's exception; if the body raised and __exit__'s return value is falsy
the exception propagates to the caller. -/
def histrogramWith (gHist : Nat) (t : HistrogramTimer) (enterTime exitTime r : ℚ)
    (body : BodyOutcome) :
    Except String (List MetricEvent × List LogEvent × BodyOutcome) :=
  let s := t.enter enterTime
  match HistrogramTimer.exit gHist s exitTime r body.toExc with
  | Except.error e => Except.error e
  | Except.ok (events, logs, ret) =>
      Except.ok (events, logs,
        match body with
        | BodyOutcome.normal => BodyOutcome.normal
        | BodyOutcome.raised e =>
            if truthy ret then BodyOutcome.normal else BodyOutcome.raised e)

/-! ## batch-otel-traces.py -/

/-- Span status codes of the trace data model. -/
inductive StatusCode
  | unset
  | ok
  | error
deriving DecidableEq, Repr

/-- A span as built by the tracer: created with unset status, empty
attributes and no recorded exceptions; endTime is none until the span is
ended. -/
structure Span where
  name : String
  startTime : ℚ
  endTime : Option ℚ
  status : StatusCode
  attributes : List (String × ℚ)
  recordedExceptions : List String
deriving DecidableEq, Repr

/-- tracer.start_as_current_span(name): a fresh span whose start time is
the current clock value at the moment of the call. -/
def startSpan (name : String) (now : ℚ) : Span :=
  { name := name, startTime := now, endTime := none, status := StatusCode.unset,
    attributes := [], recordedExceptions := [] }

/-- span.set_attribute(k, v). -/
def Span.set_attribute (sp : Span) (k : String) (v : ℚ) : Span :=
  { sp with attributes := sp.attributes ++ [(k, v)] }

/-- span.set_status(status). -/
def Span.set_status (sp : Span) (st : StatusCode) : Span :=
  { sp with status := st }

/-- span.record_exception(e). -/
def Span.record_exception (sp : Span) (e : String) : Span :=
  { sp with recordedExceptions := sp.recordedExceptions ++ [e] }

/-- Ending a span when its with-block closes: fixes the end time; the
finalized span is handed to the span processor. -/
def Span.endAt (sp : Span) (t : ℚ) : Span :=
  { sp with endTime := some t }

/-- SpanTime instance state after __init__ (name and `attributes or \x7b\x7d`
stored on self; the stored attributes are never read by __exit__). -/
structure SpanTime where
  name : String
  attributes : AttrSet
deriving DecidableEq, Repr

/-- SpanTime.__init__. -/
def SpanTime.init (name : String) (attributes : AttrSet) : SpanTime :=
  { name := name, attributes := orEmpty attributes }

/-- A SpanTime after __enter__ ran: start_time holds the perf_counter value
captured at acquisition. -/
structure EnteredSpanTime where
  st : SpanTime
  start_time : ℚ
deriving DecidableEq, Repr

/-- SpanTime.__enter__: captures the current perf_counter value and
returns self. -/
def SpanTime.enter (t : SpanTime) (now : ℚ) : EnteredSpanTime :=
  { st := t, start_time := now }

/-- SpanTime.__exit__.  It computes duration_ms from the stored start_time,
then opens `with tracer.start_as_current_span(self.name) as span` — the
span is created here, at release time now — and inside it runs the
try/except: on the ok path it sets the duration attribute and status OK,
on the caught injected error it records the exception, sets status ERROR
and logs.  The inner with-block then ends the span at spanEnd.  The
exception triple exc passed by the outer with statement is named in the
signature but never read.  Result: the finalized spans handed to the span
processor, the log records, and the method's return value (None). -/
def SpanTime.exit (s : EnteredSpanTime) (now spanEnd r : ℚ)
    (exc : Option String) : Except String (List Span × List LogEvent × Option Bool) :=
  let duration_ms := (now - s.start_time) * 1000
  let span := startSpan s.st.name now
  match pyTry
      (match injectionTry r with
       | Except.error e => Except.error e
       | Except.ok _ =>
           Except.ok
             (((span.set_attribute "duration" duration_ms).set_status StatusCode.ok),
              ([] : List LogEvent)))
      (fun e => Except.ok
        (((span.record_exception e).set_status StatusCode.error),
         [LogEvent.mk "error" "failed transaction"])) with
  | Except.error e => Except.error e
  | Except.ok (sp, logs) => Except.ok ([sp.endAt spanEnd], logs, none)

/-- A full with-block of SpanTime: __enter__ at enterTime, the body runs to
its outcome, __exit__ at exitTime (inner span ends at spanEnd) with random
draw r and the body's exception; if the body raised and __exit__'s return
value is falsy the exception propagates to the caller. -/
def spanWith (t : SpanTime) (enterTime exitTime spanEnd r : ℚ)
    (body : BodyOutcome) :
    Except String (List Span × List LogEvent × BodyOutcome) :=
  let s := t.enter enterTime
  match SpanTime.exit s exitTime spanEnd r body.toExc with
  | Except.error e => Except.error e
  | Except.ok (spans, logs, ret) =>
      Except.ok (spans, logs,
        match body with
        | BodyOutcome.normal => BodyOutcome.normal
        | BodyOutcome.raised e =>
            if truthy ret then BodyOutcome.normal else BodyOutcome.raised e)

/-! ## Exporter construction (module setup of both files) -/

/-- Environment-supplied OTLP configuration recognized by the exporter
constructors (endpoint and transport-security settings that apply when no
explicit argument is passed). -/
structure OTLPConfig where
  endpoint : Option String
  insecure : Option Bool
deriving DecidableEq, Repr

/-- A constructed OTLP exporter: its endpoint and whether it uses an
insecure (plaintext) channel. -/
structure OTLPExporter where
  endpoint : String
  insecure : Bool
deriving DecidableEq, Repr

/-- OTLP exporter constructor semantics: an explicitly passed argument
takes precedence over the environment configuration; with neither, the
endpoint defaults to the local collector and the channel is secure. -/
def mkOTLPExporter (cfg : OTLPConfig) (endpointArg : Option String)
    (insecureArg : Option Bool) : OTLPExporter :=
  { endpoint := endpointArg.getD (cfg.endpoint.getD "localhost:4317"),
    insecure := insecureArg.getD (cfg.insecure.getD false) }

/-- The exporter as constructed in batch-otel-metrics.py:
OTLPMetricExporter(insecure=True) — the insecure argument is passed as the
literal True. -/
def metricsExporter (cfg : OTLPConfig) : OTLPExporter :=
  mkOTLPExporter cfg none (some true)

/-- The exporter as constructed in batch-otel-traces.py:
OTLPSpanExporter(insecure=True) — the insecure argument is passed as the
literal True. -/
def tracesExporter (cfg : OTLPConfig) : OTLPExporter :=
  mkOTLPExporter cfg none (some true)

/-! ## Closed forms of the two release paths -/

/-- Closed form of HistrogramTimer.__exit__: the method never raises; it
emits an error-counter increment and one error log exactly when the draw
fires, and always ends with one histogram record of the elapsed duration
into the module-level handle; it returns None. -/
theorem histrogramTimer_exit_eq (gHist : Nat) (s : EnteredTimer) (now r : ℚ)
    (exc : Option String) :
    HistrogramTimer.exit gHist s now r exc =
      Except.ok
        ((if r < 0.05
            then [MetricEvent.counterAdd s.timer.error_counter 1 s.timer.attributes]
            else []) ++
           [MetricEvent.histRecord gHist ((now - s.start_time) * 1000) s.timer.attributes],
         (if r < 0.05 then [LogEvent.mk "error" "transaction failed"] else []),
         none) := by
  unfold HistrogramTimer.exit injectionTry pyTry
  by_cases h : r < 0.05 <;> simp [h]

/-- Closed form of SpanTime.__exit__: the method never raises; it finalizes
exactly one span, created at release time now and ended at spanEnd, whose
status, attributes and recorded exception depend only on the draw, and
returns None. -/
theorem spanTime_exit_eq (s : EnteredSpanTime) (now spanEnd r : ℚ)
    (exc : Option String) :
    SpanTime.exit s now spanEnd r exc =
      Except.ok
        ([if r < 0.05 then
            { name := s.st.name, startTime := now, endTime := some spanEnd,
              status := StatusCode.error, attributes := [],
              recordedExceptions := ["simulated error"] }
          else
            { name := s.st.name, startTime := now, endTime := some spanEnd,
              status := StatusCode.ok,
              attributes := [("duration", (now - s.start_time) * 1000)],
              recordedExceptions := [] }],
         (if r < 0.05 then [LogEvent.mk "error" "failed transaction"] else []),
         none) := by
  unfold SpanTime.exit injectionTry pyTry startSpan Span.set_attribute Span.set_status
    Span.record_exception Span.endAt
  by_cases h : r < 0.05 <;> simp [h]

/-- Closed form of a full HistrogramTimer with-block: the release always
runs, emits its events and logs, returns None, and the body's outcome
(normal or raised) passes through unchanged. -/
theorem histrogramWith_eq (gHist : Nat) (t : HistrogramTimer) (t0 t1 r : ℚ)
    (body : BodyOutcome) :
    histrogramWith gHist t t0 t1 r body =
      Except.ok
        ((if r < 0.05
            then [MetricEvent.counterAdd t.error_counter 1 t.attributes]
            else []) ++
           [MetricEvent.histRecord gHist ((t1 - t0) * 1000) t.attributes],
         (if r < 0.05 then [LogEvent.mk "error" "transaction failed"] else []),
         body) := by
  simp only [histrogramWith, histrogramTimer_exit_eq]
  cases body <;> simp [truthy, HistrogramTimer.enter]

/-- Closed form of a full SpanTime with-block: the release always runs,
finalizes exactly one span, returns None, and the body's outcome passes
through unchanged. -/
theorem spanWith_eq (st : SpanTime) (t0 t1 sEnd r : ℚ) (body : BodyOutcome) :
    spanWith st t0 t1 sEnd r body =
      Except.ok
        ([if r < 0.05 then
            { name := st.name, startTime := t1, endTime := some sEnd,
              status := StatusCode.error, attributes := [],
              recordedExceptions := ["simulated error"] }
          else
            { name := st.name, startTime := t1, endTime := some sEnd,
              status := StatusCode.ok,
              attributes := [("duration", (t1 - t0) * 1000)],
              recordedExceptions := [] }],
         (if r < 0.05 then [LogEvent.mk "error" "failed transaction"] else []),
         body) := by
  simp only [spanWith, spanTime_exit_eq]
  cases body <;> simp [truthy, SpanTime.enter]

/-! ## Claims -/

/-- C1: every completed with-block of HistrogramTimer produces exactly one
duration record into the histogram, and exactly one error-count increment
when the outcome is error (zero otherwise); every completed with-block of
SpanTime finalizes exactly one terminal span record — never zero of
either, never duplicated. -/
theorem c1_exactly_one_terminal_record (gHist : Nat) (t : HistrogramTimer)
    (st : SpanTime) (t0 t1 sEnd r : ℚ) (body : BodyOutcome) :
    (∃ ev lg out, histrogramWith gHist t t0 t1 r body = Except.ok (ev, lg, out) ∧
      (ev.filter MetricEvent.isHistRecord).length = 1 ∧
      (ev.filter MetricEvent.isCounterAdd).length = (if r < 0.05 then 1 else 0)) ∧
    (∃ spans lg out, spanWith st t0 t1 sEnd r body = Except.ok (spans, lg, out) ∧
      spans.length = 1) := by
  rw [histrogramWith_eq, spanWith_eq]
  by_cases h : r < 0.05 <;>
    simp [h, MetricEvent.isHistRecord, MetricEvent.isCounterAdd]

/-- C7: on every release, the outcome is classified error exactly when the
sampled value r drawn during release is below 0.05: in metric mode an
error-counter increment is emitted iff r is below the threshold, and in
span mode the span status is error iff r is below the threshold and ok
otherwise. -/
theorem c7_injection_threshold (gHist : Nat) (t : HistrogramTimer)
    (st : SpanTime) (t0 t1 sEnd r : ℚ) (exc : Option String) :
    (∃ ev lg ret, HistrogramTimer.exit gHist (t.enter t0) t1 r exc =
        Except.ok (ev, lg, ret) ∧
      ((∃ h d a, MetricEvent.counterAdd h d a ∈ ev) ↔ r < 0.05)) ∧
    (∃ sp lg ret, SpanTime.exit (st.enter t0) t1 sEnd r exc =
        Except.ok ([sp], lg, ret) ∧
      (sp.status = StatusCode.error ↔ r < 0.05) ∧
      (sp.status = StatusCode.ok ↔ ¬ r < 0.05)) := by
  rw [histrogramTimer_exit_eq, spanTime_exit_eq]
  by_cases h : r < 0.05 <;>
    simp [h, HistrogramTimer.enter, SpanTime.enter]

/-- C8: the synthetic injected failure is absorbed inside the release path:
neither release method ever lets the injected fault escape as a raised
exception — for all inputs both return a normal (Except.ok) result. -/
theorem c8_injection_absorbed (gHist : Nat) (s : EnteredTimer)
    (s2 : EnteredSpanTime) (now spanEnd r : ℚ) (exc : Option String) :
    (∃ v, HistrogramTimer.exit gHist s now r exc = Except.ok v) ∧
    (∃ w, SpanTime.exit s2 now spanEnd r exc = Except.ok w) := by
  rw [histrogramTimer_exit_eq, spanTime_exit_eq]
  exact ⟨⟨_, rfl⟩, ⟨_, rfl⟩⟩

/-- C10: both __exit__ methods always return None (falsy), so an exception
raised by the instrumented with-block body is never suppressed: after the
release's telemetry actions run, the with-block re-raises the body's
exception to the caller. -/
theorem c10_no_suppression (gHist : Nat) (t : HistrogramTimer) (st : SpanTime)
    (t0 t1 sEnd r : ℚ) (e : String) :
    (∃ ev lg, HistrogramTimer.exit gHist (t.enter t0) t1 r (some e) =
        Except.ok (ev, lg, (none : Option Bool))) ∧
    (∃ sp lg, SpanTime.exit (st.enter t0) t1 sEnd r (some e) =
        Except.ok (sp, lg, (none : Option Bool))) ∧
    (∃ ev lg, histrogramWith gHist t t0 t1 r (BodyOutcome.raised e) =
        Except.ok (ev, lg, BodyOutcome.raised e)) ∧
    (∃ sp lg, spanWith st t0 t1 sEnd r (BodyOutcome.raised e) =
        Except.ok (sp, lg, BodyOutcome.raised e)) := by
  rw [histrogramTimer_exit_eq, spanTime_exit_eq, histrogramWith_eq, spanWith_eq]
  exact ⟨⟨_, _, rfl⟩, ⟨_, _, rfl⟩, ⟨_, _, rfl⟩, ⟨_, _, rfl⟩⟩

/-- C2 counterexample: a SpanTime release with draw r = 0 (injected error
outcome, acquisition at 0, release at 10, span ended at 11) finalizes a
span of status error whose attribute list is empty — the duration
attribute is not set when the outcome is error, refuting the claim that
the duration is recorded in span mode regardless of outcome. -/
theorem c2_counterexample :
    SpanTime.exit ((SpanTime.init "data-process" []).enter 0) 10 11 0 none =
      Except.ok
        ([{ name := "data-process", startTime := 10, endTime := some 11,
            status := StatusCode.error, attributes := [],
            recordedExceptions := ["simulated error"] }],
         [LogEvent.mk "error" "failed transaction"], none) := by
  rw [spanTime_exit_eq]
  norm_num [SpanTime.enter, SpanTime.init, orEmpty]

/-- C2 amended: on every release the elapsed duration is recorded in metric
mode regardless of outcome (the histogram record is always emitted), but
in span mode the span's duration attribute is set exactly when the outcome
is ok — on the error path the span carries no duration attribute. -/
theorem c2_duration_recording (gHist : Nat) (t : HistrogramTimer)
    (st : SpanTime) (t0 t1 sEnd r : ℚ) (exc : Option String) :
    (∃ ev lg ret, HistrogramTimer.exit gHist (t.enter t0) t1 r exc =
        Except.ok (ev, lg, ret) ∧
      MetricEvent.histRecord gHist ((t1 - t0) * 1000) t.attributes ∈ ev) ∧
    (∃ sp lg ret, SpanTime.exit (st.enter t0) t1 sEnd r exc =
        Except.ok ([sp], lg, ret) ∧
      sp.attributes =
        (if r < 0.05 then [] else [("duration", (t1 - t0) * 1000)])) := by
  rw [histrogramTimer_exit_eq, spanTime_exit_eq]
  by_cases h : r < 0.05 <;> simp [h, HistrogramTimer.enter, SpanTime.enter]

/-- C3 counterexample: a release invoked with a non-null exception (the
body raised CancelledError) and draw r = 1/2 classifies the outcome as ok,
not error: the metric release emits no error-counter increment and no
error log, and the span release finalizes a span of status ok — refuting
the claim that a non-null exception makes the release classify the outcome
as error. -/
theorem c3_counterexample :
    HistrogramTimer.exit 0 ((HistrogramTimer.init 0 1 []).enter 0) 10 (1/2)
        (some "CancelledError") =
      Except.ok ([MetricEvent.histRecord 0 10000 []], [], none) ∧
    SpanTime.exit ((SpanTime.init "data-process" []).enter 0) 10 11 (1/2)
        (some "CancelledError") =
      Except.ok
        ([{ name := "data-process", startTime := 10, endTime := some 11,
            status := StatusCode.ok, attributes := [("duration", 10000)],
            recordedExceptions := [] }], [], none) := by
  rw [histrogramTimer_exit_eq, spanTime_exit_eq]
  norm_num [HistrogramTimer.enter, HistrogramTimer.init, SpanTime.enter,
    SpanTime.init, orEmpty]

/-- C3 amended: when the instrumented work exits by a raised fault or
cancellation, the release still runs and its telemetry is still emitted
(guaranteed-release), but the outcome classification ignores the passed
exception entirely: both release methods return the same result for every
exception argument, and the outcome is classified error exactly when the
synthetic draw is below 0.05 — a raised fault with draw at or above 0.05
is classified ok. -/
theorem c3_release_ignores_exception (gHist : Nat) (t : HistrogramTimer)
    (st : SpanTime) (t0 t1 sEnd r : ℚ) (e : String) :
    (∀ exc exc', HistrogramTimer.exit gHist (t.enter t0) t1 r exc =
        HistrogramTimer.exit gHist (t.enter t0) t1 r exc') ∧
    (∀ exc exc', SpanTime.exit (st.enter t0) t1 sEnd r exc =
        SpanTime.exit (st.enter t0) t1 sEnd r exc') ∧
    (∃ ev lg, histrogramWith gHist t t0 t1 r (BodyOutcome.raised e) =
        Except.ok (ev, lg, BodyOutcome.raised e) ∧
      ((ev.filter MetricEvent.isCounterAdd).length = 1 ↔ r < 0.05)) ∧
    (∃ sp lg, spanWith st t0 t1 sEnd r (BodyOutcome.raised e) =
        Except.ok ([sp], lg, BodyOutcome.raised e) ∧
      (sp.status = StatusCode.error ↔ r < 0.05)) := by
  refine ⟨fun exc exc' => by rw [histrogramTimer_exit_eq, histrogramTimer_exit_eq],
          fun exc exc' => by rw [spanTime_exit_eq, spanTime_exit_eq], ?_, ?_⟩
  · rw [histrogramWith_eq]
    by_cases h : r < 0.05 <;> simp [h, MetricEvent.isCounterAdd]
  · rw [spanWith_eq]
    by_cases h : r < 0.05 <;> simp [h]

/-- C4 counterexample: with acquisition at time 0 and release at time 10,
the finalized span's start time is 10, the release time — not 0, the
acquisition time — refuting the claim that the span's start time is
captured at measurement acquisition. -/
theorem c4_counterexample :
    SpanTime.exit ((SpanTime.init "data-process" []).enter 0) 10 11 (1/2) none =
      Except.ok
        ([{ name := "data-process", startTime := 10, endTime := some 11,
            status := StatusCode.ok, attributes := [("duration", 10000)],
            recordedExceptions := [] }], [], none) ∧
    (10 : ℚ) ≠ (0 : ℚ) := by
  constructor
  · rw [spanTime_exit_eq]
    norm_num [SpanTime.enter, SpanTime.init, orEmpty]
  · norm_num

/-- C4 amended: the wall-clock start is captured at acquisition and used
only to compute the duration; the span itself is created during release,
so both its start time (equal to the release time) and its end time are
fixed at release — the span's own interval does not cover the instrumented
work, whose measured duration is instead carried in the span's duration
attribute when the outcome is ok. -/
theorem c4_span_created_at_release (st : SpanTime) (t0 t1 sEnd r : ℚ)
    (exc : Option String) :
    ∃ sp lg ret, SpanTime.exit (st.enter t0) t1 sEnd r exc =
        Except.ok ([sp], lg, ret) ∧
      sp.startTime = t1 ∧ sp.endTime = some sEnd ∧
      sp.attributes = (if r < 0.05 then [] else [("duration", (t1 - t0) * 1000)]) := by
  rw [spanTime_exit_eq]
  by_cases h : r < 0.05 <;> simp [h, SpanTime.enter]

/-- C5: evaluating HistrogramTimer.__exit__ at a timer constructed with a
histogram handle (1) different from the module-level duration_histogram
handle (0): the timer stores handle 1 as self.duration_histogram, yet the
duration record is emitted to handle 0 — the method's final line reads the
bare global name duration_histogram instead of self.duration_histogram,
so the handle supplied at acquisition never receives the record. -/
theorem c5_global_histogram_receives_record :
    HistrogramTimer.exit 0
        ((HistrogramTimer.init 1 2 [("op", "data-process")]).enter 0) 10 (1/2)
        none =
      Except.ok ([MetricEvent.histRecord 0 10000 [("op", "data-process")]],
                 [], none) ∧
    (HistrogramTimer.init 1 2 [("op", "data-process")]).duration_histogram = 1 := by
  constructor
  · rw [histrogramTimer_exit_eq]
    norm_num [HistrogramTimer.enter, HistrogramTimer.init, orEmpty]
  · rfl

/-- C6: on every release whose outcome is error (draw below 0.05), the
metric release increments the error counter by exactly 1 with the scope's
own attribute set and emits exactly one diagnostic log entry of severity
error, and the span release sets the span status to error, attaches the
recorded exception, and emits exactly one diagnostic log entry of severity
error. -/
theorem c6_error_path (gHist : Nat) (t : HistrogramTimer) (st : SpanTime)
    (t0 t1 sEnd r : ℚ) (exc : Option String) (h : r < 0.05) :
    HistrogramTimer.exit gHist (t.enter t0) t1 r exc =
      Except.ok
        ([MetricEvent.counterAdd t.error_counter 1 t.attributes,
          MetricEvent.histRecord gHist ((t1 - t0) * 1000) t.attributes],
         [LogEvent.mk "error" "transaction failed"], none) ∧
    SpanTime.exit (st.enter t0) t1 sEnd r exc =
      Except.ok
        ([{ name := st.name, startTime := t1, endTime := some sEnd,
            status := StatusCode.error, attributes := [],
            recordedExceptions := ["simulated error"] }],
         [LogEvent.mk "error" "failed transaction"], none) := by
  rw [histrogramTimer_exit_eq, spanTime_exit_eq]
  simp [h, HistrogramTimer.enter, SpanTime.enter]

/-- Witness for C6 at concrete inputs: draw 0 is below the threshold and
the error-path conclusion holds at those inputs. -/
theorem c6_error_path_witness :
    (0 : ℚ) < 0.05 ∧
    (HistrogramTimer.exit 3 ((HistrogramTimer.mk 3 4 [("op", "data-process")]).enter 0)
        10 0 none =
      Except.ok
        ([MetricEvent.counterAdd 4 1 [("op", "data-process")],
          MetricEvent.histRecord 3 ((10 - 0) * 1000) [("op", "data-process")]],
         [LogEvent.mk "error" "transaction failed"], none) ∧
    SpanTime.exit ((SpanTime.mk "data-process" []).enter 0) 10 11 0 none =
      Except.ok
        ([{ name := "data-process", startTime := 10, endTime := some 11,
            status := StatusCode.error, attributes := [],
            recordedExceptions := ["simulated error"] }],
         [LogEvent.mk "error" "failed transaction"], none)) :=
  ⟨by norm_num,
   c6_error_path 3 (HistrogramTimer.mk 3 4 [("op", "data-process")])
     (SpanTime.mk "data-process" []) 0 10 11 0 none (by norm_num)⟩

/-- C9 counterexample: with a configuration whose transport-security
setting requests a secure channel (insecure = false), both exporters are
still constructed insecure — refuting the claim that the exporter is
constructed with the configured security mode. -/
theorem c9_counterexample :
    (metricsExporter { endpoint := none, insecure := some false }).insecure = true ∧
    (tracesExporter { endpoint := none, insecure := some false }).insecure = true := by
  constructor <;> rfl

/-- C9 amended: the transport security of both exporters is hard-coded in
the source (the literal insecure=True is passed to each constructor): for
every configuration input the constructed exporter uses an insecure
plaintext channel; the endpoint, by contrast, is taken from configuration
when supplied. -/
theorem c9_insecure_hardcoded (cfg : OTLPConfig) (ep : String) :
    (metricsExporter cfg).insecure = true ∧
    (tracesExporter cfg).insecure = true ∧
    (metricsExporter { cfg with endpoint := some ep }).endpoint = ep ∧
    (tracesExporter { cfg with endpoint := some ep }).endpoint = ep := by
  refine ⟨rfl, rfl, rfl, rfl⟩

end Otel
